import Mathlib

/-!
Verification development for the binary-expression code generator of the
speedy.js compiler
(src/packages/compiler/src/code-generation/code-generators/binary-expression-code-generator.ts).

The generator is embedded shallowly: the emission context's builder is modelled
as an explicit instruction trace threaded through every step, the TypeScript
switch over the operator token becomes a Lean match, and the thrown errors
become an explicit error result carrying the trace at the moment of the throw
(the instructions already sent to the builder persist when the exception
propagates).  Parts of the repository that the generator calls but that are not
part of this source file (the Value abstraction, the type checker's flag
queries) are modelled from the specification and marked as such in their doc
comments.
-/

/-- Operator tokens: the members of the TypeScript ts.SyntaxKind enumeration
that the generator mentions, plus the operator tokens the claims discuss.
ts.SyntaxKind.FirstAssignment is TypeScript's alias for EqualsToken, so the
source's FirstAssignment case is the EqualsToken case here. -/
inductive TokenKind where
  | EqualsToken
  | PlusEqualsToken
  | MinusEqualsToken
  | AsteriskAsteriskEqualsToken
  | AsteriskEqualsToken
  | SlashEqualsToken
  | PercentEqualsToken
  | AmpersandEqualsToken
  | BarEqualsToken
  | CaretEqualsToken
  | LessThanLessThanEqualsToken
  | GreaterThanGreaterThanGreaterThanEqualsToken
  | GreaterThanGreaterThanEqualsToken
  | AsteriskToken
  | AsteriskAsteriskToken
  | BarToken
  | PlusToken
  | MinusToken
  | GreaterThanToken
  | LessThanToken
  | SlashToken
  | EqualsEqualsEqualsToken
  | ExclamationEqualsEqualsToken
  | LessThanEqualsToken
  | GreaterThanEqualsToken
  | PercentToken
  | AmpersandToken
  | CaretToken
  | LessThanLessThanToken
  | GreaterThanGreaterThanToken
  | GreaterThanGreaterThanGreaterThanToken
deriving DecidableEq

/-- Modelled from the spec: the type lattice of spec section 3 as the front-end
type checker (an external collaborator, not under src/) reports it.  int32 is
the explicitly annotated integer type (the fork's Int flag), intLiteral an
integer literal type (int-like but not the declared Int type), float64 the
default numeric type, floatLiteral a float literal type. -/
inductive TsType where
  | int32
  | intLiteral
  | float64
  | floatLiteral
  | boolTy
  | voidTy
  | refTy
deriving DecidableEq

/-- The bit test type.flags & ts.TypeFlags.Int of the int-enabled TypeScript
fork.  Modelled from the spec: the Int flag marks the declared int type. -/
def TsType.flagsInt : TsType → Bool
  | .int32 => true
  | _ => false

/-- The bit test type.flags & ts.TypeFlags.IntLike.  Modelled from the spec:
is_int_like holds for the integer types. -/
def TsType.flagsIntLike : TsType → Bool
  | .int32 | .intLiteral => true
  | _ => false

/-- The bit test type.flags & ts.TypeFlags.NumberLike.  Modelled from the
spec: is_number_like, with int_like contained in number_like. -/
def TsType.flagsNumberLike : TsType → Bool
  | .int32 | .intLiteral | .float64 | .floatLiteral => true
  | _ => false

/-- An llvm.Value operand as the generator sees it: an SSA register produced
by an instruction, or an llvm.ConstantInt. -/
inductive Operand where
  | reg (n : Nat)
  | constInt (v : Int)
deriving DecidableEq

/-- The source's test rightLLVMValue instanceof llvm.ConstantInt &&
rightLLVMValue.isNullValue(). -/
def Operand.isConstIntNull : Operand → Bool
  | .constInt v => v == 0
  | .reg _ => false

/-- The builder operations the generator invokes (createMul, createOr,
createFPToSI, createAdd, createFAdd, createSub, createFSub, createICmpSGT,
createFCmpOGT, createICmpSLT, createFCmpULT, createSDiv, createFDiv,
createICmpEQ, createFCmpOEQ, createICmpSLE, createFCmpULE, createSRem,
createFRem). -/
inductive Opcode where
  | mul
  | or
  | fptosi
  | add
  | fadd
  | sub
  | fsub
  | icmpSGT
  | fcmpOGT
  | icmpSLT
  | fcmpULT
  | sdiv
  | fdiv
  | icmpEQ
  | fcmpOEQ
  | icmpSLE
  | fcmpULE
  | srem
  | frem
deriving DecidableEq

/-- Whether the opcode is a floating-point emission (the float path of an
operator, including the float-to-signed-int truncation). -/
def Opcode.isFloatOp : Opcode → Bool
  | .fadd | .fsub | .fdiv | .frem | .fptosi | .fcmpOGT | .fcmpULT | .fcmpOEQ | .fcmpULE => true
  | _ => false

/-- An SSA instruction appended to the builder: a load materializing an
l-value, a two-operand builder instruction, a conversion, or the store an
assignment performs. -/
inductive Instr where
  | load (result slot : Nat)
  | binop (op : Opcode) (result : Nat) (lhs rhs : Operand)
  | conv (op : Opcode) (result : Nat) (src : Operand)
  | store (slot : Nat) (value : Operand)
deriving DecidableEq

/-- The opcode of an instruction, when it has one. -/
def Instr.opcode : Instr → Option Opcode
  | .binop op _ _ _ => some op
  | .conv op _ _ => some op
  | _ => none

/-- Whether the instruction is a floating-point emission. -/
def Instr.isFloatOp : Instr → Bool
  | .binop op _ _ _ => op.isFloatOp
  | .conv op _ _ => op.isFloatOp
  | _ => false

/-- Whether the instruction is an assignment store. -/
def Instr.isStore : Instr → Bool
  | .store _ _ => true
  | _ => false

/-- The builder state of the emission context: the instructions emitted so
far and the next fresh SSA register. -/
structure EmitState where
  instrs : List Instr
  nextReg : Nat
deriving DecidableEq

/-- Modelled from the spec: the Value abstraction (spec section 4.2, defined
in the repository's value module, not under src/).  An r-value carries an SSA
operand, an l-value a storage slot; both record the static type the Value was
constructed with. -/
inductive Val where
  | rvalue (op : Operand) (ty : TsType)
  | lvalue (slot : Nat) (ty : TsType)
deriving DecidableEq

/-- The static type recorded in the Value at construction. -/
def Val.ty : Val → TsType
  | .rvalue _ t => t
  | .lvalue _ t => t

/-- Modelled from the spec: is_assignable is true iff the Value is an
l-value. -/
def Val.isAssignable : Val → Bool
  | .lvalue _ _ => true
  | .rvalue _ _ => false

/-- Modelled from the spec: Value.generateIR / as_rvalue — identity for an
r-value, emits a load of the slot for an l-value. -/
def Val.generateIR : Val → EmitState → Operand × EmitState
  | .rvalue op _, s => (op, s)
  | .lvalue slot _, s => (.reg s.nextReg, ⟨s.instrs ++ [.load s.nextReg slot], s.nextReg + 1⟩)

/-- Whether materializing the Value yields an integer constant zero (the IR a
literal 0 produces). -/
def Val.isConstIntNullIR : Val → Bool
  | .rvalue op _ => op.isConstIntNull
  | .lvalue _ _ => false

/-- context.builder.createXxx for the two-operand instructions: appends the
instruction and returns the fresh result register. -/
def createBinop (op : Opcode) (lhs rhs : Operand) (s : EmitState) : Operand × EmitState :=
  (.reg s.nextReg, ⟨s.instrs ++ [.binop op s.nextReg lhs rhs], s.nextReg + 1⟩)

/-- context.builder.createFPToSI(src, int32). -/
def createFPToSI (src : Operand) (s : EmitState) : Operand × EmitState :=
  (.reg s.nextReg, ⟨s.instrs ++ [.conv .fptosi s.nextReg src], s.nextReg + 1⟩)

/-- An operand node of the binary expression as the generator observes it:
the static type the type checker reports for it (getTypeAtLocation), the
instructions context.generateValue emits while lowering it (the recursive
dispatch, opaque to this generator), and the Value that lowering yields. -/
structure OperandNode where
  ty : TsType
  gen : List Instr
  val : Val
deriving DecidableEq

/-- A ts.BinaryExpression as the generator consumes it. -/
structure BinExpr where
  left : OperandNode
  right : OperandNode
  operatorToken : TokenKind
deriving DecidableEq

/-- context.generateValue(node): delegates to the dispatcher, appending the
node's lowering to the trace and returning its Value. -/
def generateValue (n : OperandNode) (s : EmitState) : Val × EmitState :=
  (n.val, ⟨s.instrs ++ n.gen, s.nextReg⟩)

/-- The errors the generator throws: the unsupported-binary-operator error of
line 141 and the readonly-assignment error of line 157. -/
inductive CompError where
  | unsupportedBinaryOperator (op : TokenKind)
  | assignmentToReadonly
deriving DecidableEq

/-- Outcome of the generator: the returned Value, or a thrown error; both
carry the builder state at the moment of return or throw (instructions already
emitted persist when the exception propagates). -/
inductive GenResult where
  | ok (val : Val) (state : EmitState)
  | err (e : CompError) (state : EmitState)
deriving DecidableEq

/-- The builder state an outcome carries. -/
def GenResult.state : GenResult → EmitState
  | .ok _ s => s
  | .err _ s => s

/-- isAssignment of the source (lines 7-21): the thirteen operator tokens of
the ||-chain, EqualsToken through GreaterThanGreaterThanEqualsToken. -/
def isAssignment (operatorToken : TokenKind) : Bool :=
  match operatorToken with
  | .EqualsToken | .PlusEqualsToken | .MinusEqualsToken | .AsteriskAsteriskEqualsToken
  | .AsteriskEqualsToken | .SlashEqualsToken | .PercentEqualsToken | .AmpersandEqualsToken
  | .BarEqualsToken | .CaretEqualsToken | .LessThanLessThanEqualsToken
  | .GreaterThanGreaterThanGreaterThanEqualsToken | .GreaterThanGreaterThanEqualsToken => true
  | _ => false

/-- The switch of lines 39-138: given the operator token, the left operand's
checker type, the left Value and the already materialized right operand,
either produce the result operand (emitting into the builder) or leave the
result undefined (none).  Branch structure, flag tests and builder calls
mirror the source case by case; the EqualsToken case is the source's
FirstAssignment case. -/
def emitOp (kind : TokenKind) (leftType : TsType) (left : Val) (rightLLVMValue : Operand)
    (s : EmitState) : Option (Operand × EmitState) :=
  match kind with
  | .AsteriskEqualsToken | .AsteriskToken =>
      if leftType.flagsInt then
        let (l, s1) := left.generateIR s
        some (createBinop .mul l rightLLVMValue s1)
      else none
  | .BarToken =>
      if leftType.flagsNumberLike then
        if rightLLVMValue.isConstIntNull then
          let (l, s1) := left.generateIR s
          some (createFPToSI l s1)
        else
          let (l, s1) := left.generateIR s
          some (createBinop .or l rightLLVMValue s1)
      else none
  | .PlusEqualsToken | .PlusToken =>
      if leftType.flagsIntLike then
        let (l, s1) := left.generateIR s
        some (createBinop .add l rightLLVMValue s1)
      else if leftType.flagsNumberLike then
        let (l, s1) := left.generateIR s
        some (createBinop .fadd l rightLLVMValue s1)
      else none
  | .MinusEqualsToken | .MinusToken =>
      if leftType.flagsIntLike then
        let (l, s1) := left.generateIR s
        some (createBinop .sub l rightLLVMValue s1)
      else if leftType.flagsNumberLike then
        let (l, s1) := left.generateIR s
        some (createBinop .fsub l rightLLVMValue s1)
      else none
  | .GreaterThanToken =>
      if leftType.flagsIntLike then
        let (l, s1) := left.generateIR s
        some (createBinop .icmpSGT l rightLLVMValue s1)
      else if leftType.flagsNumberLike then
        let (l, s1) := left.generateIR s
        some (createBinop .fcmpOGT l rightLLVMValue s1)
      else none
  | .LessThanToken =>
      if leftType.flagsIntLike then
        let (l, s1) := left.generateIR s
        some (createBinop .icmpSLT l rightLLVMValue s1)
      else if leftType.flagsNumberLike then
        let (l, s1) := left.generateIR s
        some (createBinop .fcmpULT l rightLLVMValue s1)
      else none
  | .SlashEqualsToken | .SlashToken =>
      if leftType.flagsIntLike then
        let (l, s1) := left.generateIR s
        some (createBinop .sdiv l rightLLVMValue s1)
      else if leftType.flagsNumberLike then
        let (l, s1) := left.generateIR s
        some (createBinop .fdiv l rightLLVMValue s1)
      else none
  | .EqualsEqualsEqualsToken =>
      if leftType.flagsIntLike then
        let (l, s1) := left.generateIR s
        some (createBinop .icmpEQ l rightLLVMValue s1)
      else if leftType.flagsNumberLike then
        let (l, s1) := left.generateIR s
        some (createBinop .fcmpOEQ l rightLLVMValue s1)
      else none
  | .LessThanEqualsToken =>
      if leftType.flagsIntLike then
        let (l, s1) := left.generateIR s
        some (createBinop .icmpSLE l rightLLVMValue s1)
      else if leftType.flagsNumberLike then
        let (l, s1) := left.generateIR s
        some (createBinop .fcmpULE l rightLLVMValue s1)
      else none
  | .PercentToken =>
      if leftType.flagsIntLike then
        let (l, s1) := left.generateIR s
        some (createBinop .srem l rightLLVMValue s1)
      else if leftType.flagsNumberLike then
        let (l, s1) := left.generateIR s
        some (createBinop .frem l rightLLVMValue s1)
      else none
  | .EqualsToken => some (rightLLVMValue, s)
  | _ => none

/-- Modelled from the spec: Value.generateAssignmentIR stores the source
value into the target l-value's slot (spec section 4.2: assign stores).  Only
reached for assignable targets; the r-value branch is dead. -/
def generateAssignmentIR (target : Val) (value : Val) (s : EmitState) : EmitState :=
  match target with
  | .lvalue slot _ =>
      let (v, s1) := value.generateIR s
      ⟨s1.instrs ++ [.store slot v], s1.nextReg⟩
  | .rvalue _ _ => s

/-- setValue of the source (lines 153-159): store into an assignable target,
throw the readonly error otherwise. -/
def setValue (target : Val) (value : Val) (s : EmitState) : Except CompError EmitState :=
  if target.isAssignable then .ok (generateAssignmentIR target value s)
  else .error .assignmentToReadonly

/-- generate of the source (lines 29-151), step by step: lower the left
operand, lower the right operand, materialize the right operand, query both
operand types, run the operator switch, throw the unsupported error if the
switch left the result undefined, wrap the result with the RIGHT operand's
static type (line 144), and perform the assignment store for assignment
operators. -/
def generate (binaryExpression : BinExpr) (s0 : EmitState) : GenResult :=
  let (left, s1) := generateValue binaryExpression.left s0
  let (right, s2) := generateValue binaryExpression.right s1
  let (rightLLVMValue, s3) := right.generateIR s2
  let leftType := binaryExpression.left.ty
  let rightType := binaryExpression.right.ty
  match emitOp binaryExpression.operatorToken leftType left rightLLVMValue s3 with
  | none => .err (.unsupportedBinaryOperator binaryExpression.operatorToken) s3
  | some (result, s4) =>
      let resultValue := Val.rvalue result rightType
      if isAssignment binaryExpression.operatorToken then
        match setValue left resultValue s4 with
        | .ok s5 => .ok resultValue s5
        | .error e => .err e s4
      else .ok resultValue s4

/-- The builder state after the generator has lowered both operands and
materialized the right one (the state the switch starts from, and the state
the unsupported-operator throw leaves behind). -/
def lowerOperandsState (b : BinExpr) (s0 : EmitState) : EmitState :=
  let (_, s1) := generateValue b.left s0
  let (right, s2) := generateValue b.right s1
  (right.generateIR s2).2

/-- The instructions the binary-expression generator itself emits (right and
left materialization, the operator instruction, the assignment store),
observed by running the generator with the operand lowerings contributing no
instructions of their own. -/
def ownInstrs (b : BinExpr) (s : EmitState) : List Instr :=
  (generate ⟨⟨b.left.ty, [], b.left.val⟩, ⟨b.right.ty, [], b.right.val⟩, b.operatorToken⟩
      ⟨[], s.nextReg⟩).state.instrs

/-- The last instruction in the builder. -/
def lastInstr (s : EmitState) : Option Instr :=
  s.instrs.reverse.head?

/-- The opcode of the last instruction emitted on a successful lowering. -/
def lastOpcode (r : GenResult) : Option Opcode :=
  match r with
  | .ok _ s => (lastInstr s).bind Instr.opcode
  | .err _ _ => none

/-- Combinator describing the source's assignment tail: take the outcome of
the pure emission and, when it succeeded, require the target to be assignable
and append the store, as lines 146-148 do. -/
def applyAssign (target : Val) : GenResult → GenResult
  | .ok v s =>
      match setValue target v s with
      | .ok s5 => .ok v s5
      | .error e => .err e s
  | .err e s => .err e s

/-- Modelled from the spec: the front-end type checker classifies comparison
expressions (less-than, greater-than, their -or-equal forms, and the strict
equality and inequality operators) as bool in the type lattice of spec
section 3. -/
def resolverTypeOfComparison : TsType := TsType.boolTy

/-- Strict equality of two float64 r-values: a === b with a, b : float64. -/
def exCmpFloat : BinExpr :=
  ⟨⟨.float64, [], .rvalue (.reg 10) .float64⟩, ⟨.float64, [], .rvalue (.reg 11) .float64⟩,
    .EqualsEqualsEqualsToken⟩

/-- Bitwise or of two float64 r-values with a non-constant right operand:
a | b with a, b : float64. -/
def exFloatBarReg : BinExpr :=
  ⟨⟨.float64, [], .rvalue (.reg 10) .float64⟩, ⟨.float64, [], .rvalue (.reg 11) .float64⟩,
    .BarToken⟩

/-- An int32 r-value ored with the literal 0: a | 0 with a : int32. -/
def exIntBarZero : BinExpr :=
  ⟨⟨.int32, [], .rvalue (.reg 10) .int32⟩, ⟨.intLiteral, [], .rvalue (.constInt 0) .intLiteral⟩,
    .BarToken⟩

/-- Addition of two int32 identifiers (l-values in slots 1 and 2): a + b. -/
def exAddSlots : BinExpr :=
  ⟨⟨.int32, [], .lvalue 1 .int32⟩, ⟨.int32, [], .lvalue 2 .int32⟩, .PlusToken⟩

/-- Multiplication of two float64 r-values: a * b with a, b : float64. -/
def exFloatMul : BinExpr :=
  ⟨⟨.float64, [], .rvalue (.reg 10) .float64⟩, ⟨.float64, [], .rvalue (.reg 11) .float64⟩,
    .AsteriskToken⟩

/-- Multiplication of two int32 r-values: a * b with a, b : int32. -/
def exIntMul : BinExpr :=
  ⟨⟨.int32, [], .rvalue (.reg 10) .int32⟩, ⟨.int32, [], .rvalue (.reg 11) .int32⟩,
    .AsteriskToken⟩

/-- Greater-or-equal on two int32 identifiers: a >= b. -/
def exIntGe : BinExpr :=
  ⟨⟨.int32, [], .lvalue 1 .int32⟩, ⟨.int32, [], .lvalue 2 .int32⟩, .GreaterThanEqualsToken⟩

/-- Bitwise and on two int32 identifiers: a & b. -/
def exIntAmp : BinExpr :=
  ⟨⟨.int32, [], .lvalue 1 .int32⟩, ⟨.int32, [], .lvalue 2 .int32⟩, .AmpersandToken⟩

/-- Compound or-assign of the literal 0 into an int32 identifier: x |= 0. -/
def exBarAssignZero : BinExpr :=
  ⟨⟨.int32, [], .lvalue 1 .int32⟩, ⟨.intLiteral, [], .rvalue (.constInt 0) .intLiteral⟩,
    .BarEqualsToken⟩

/-- The pure counterpart of exBarAssignZero: x | 0 on the same operands. -/
def exBarZeroPure : BinExpr :=
  ⟨⟨.int32, [], .lvalue 1 .int32⟩, ⟨.intLiteral, [], .rvalue (.constInt 0) .intLiteral⟩,
    .BarToken⟩

/-- Compound add-assign of two int32 identifiers: x += y with x in slot 1 and
y in slot 2. -/
def exAddAssign : BinExpr :=
  ⟨⟨.int32, [], .lvalue 1 .int32⟩, ⟨.int32, [], .lvalue 2 .int32⟩, .PlusEqualsToken⟩

/-- Addition of two int32 r-values: a + b with a, b : int32. -/
def exIntAddRegs : BinExpr :=
  ⟨⟨.int32, [], .rvalue (.reg 10) .int32⟩, ⟨.int32, [], .rvalue (.reg 11) .int32⟩, .PlusToken⟩

/-- Addition of two float64 r-values: a + b with a, b : float64. -/
def exFloatAddRegs : BinExpr :=
  ⟨⟨.float64, [], .rvalue (.reg 10) .float64⟩, ⟨.float64, [], .rvalue (.reg 11) .float64⟩,
    .PlusToken⟩

/-- A float64 r-value ored with the literal 0: a | 0 with a : float64. -/
def exFloatBarZero : BinExpr :=
  ⟨⟨.float64, [], .rvalue (.reg 10) .float64⟩, ⟨.intLiteral, [], .rvalue (.constInt 0) .intLiteral⟩,
    .BarToken⟩

/-- Bitwise or on two bool operands: a | b with a, b : bool. -/
def exBoolBar : BinExpr :=
  ⟨⟨.boolTy, [], .rvalue (.reg 10) .boolTy⟩, ⟨.boolTy, [], .rvalue (.reg 11) .boolTy⟩, .BarToken⟩

/-- Greater-than on two float64 r-values: a > b. -/
def exFloatCmp (k : TokenKind) : BinExpr :=
  ⟨⟨.float64, [], .rvalue (.reg 10) .float64⟩, ⟨.float64, [], .rvalue (.reg 11) .float64⟩, k⟩

/-- The initial builder state. -/
def s0 : EmitState := ⟨[], 0⟩

/-- C1, counterexample.  The claim that a successfully lowered binary
expression's Value records the resolver's type of the expression node (bool
for a comparison) is false: for a === b with float64 operands the generator
records float64 — the right operand's static type, which line 144 passes to
context.value — while the resolver classifies the comparison expression as
bool. -/
theorem C1_counterexample :
    generate exCmpFloat s0 =
      .ok (.rvalue (.reg 0) .float64) ⟨[.binop .fcmpOEQ 0 (.reg 10) (.reg 11)], 1⟩ ∧
    (match generate exCmpFloat s0 with
      | .ok v _ => some v.ty
      | .err _ _ => none) = some TsType.float64 ∧
    resolverTypeOfComparison = TsType.boolTy ∧ TsType.float64 ≠ TsType.boolTy := by
  decide

/-- C2, counterexample.  The claim that for a number-like non-int left
operand of the or operator with a non-zero-constant right operand the
generator raises an error is false: for a | b with float64 operands (right
operand a register, not a constant) the generator succeeds and emits a
bitwise or. -/
theorem C2_counterexample :
    TsType.float64.flagsNumberLike = true ∧ TsType.float64.flagsIntLike = false ∧
    generate exFloatBarReg s0 =
      .ok (.rvalue (.reg 0) .float64) ⟨[.binop .or 0 (.reg 10) (.reg 11)], 1⟩ := by
  decide

/-- C3, counterexample.  The claim that an int32-typed operand never takes
the float emission path — in particular that an int32 left operand of the or
operator never produces a float-to-int truncation — is false: the or case
tests only the NumberLike flag (line 49), so a | 0 with a : int32 emits the
float-to-signed-int-32 truncation of a. -/
theorem C3_counterexample :
    TsType.int32.flagsIntLike = true ∧
    generate exIntBarZero s0 =
      .ok (.rvalue (.reg 0) .intLiteral) ⟨[.conv .fptosi 0 (.reg 10)], 1⟩ := by
  decide

/-- C4, counterexample.  The claim that all effects of lowering the left
operand, including emission of its SSA instructions, occur before those of
the right operand is false: for a + b with both operands identifiers
(l-values in slots 1 and 2), the load materializing the right operand
(slot 2) is emitted first — line 32 materializes the right operand before the
case bodies call left.generateIR(). -/
theorem C4_counterexample :
    generate exAddSlots s0 =
      .ok (.rvalue (.reg 2) .int32)
        ⟨[.load 0 2, .load 1 1, .binop .add 2 (.reg 1) (.reg 0)], 3⟩ ∧
    (ownInstrs exAddSlots s0).head? = some (.load 0 2) ∧
    exAddSlots.left.val = .lvalue 1 .int32 ∧ exAddSlots.right.val = .lvalue 2 .int32 := by
  decide

/-- C5, counterexample.  The claim that for a number-like non-int left
operand the * operator emits an integer multiply after promotion rather than
raising an error is false: for a * b with float64 operands the switch leaves
the result undefined (line 42 tests only the Int flag, with no else branch)
and the generator throws the unsupported-operator error. -/
theorem C5_counterexample :
    TsType.float64.flagsNumberLike = true ∧
    generate exFloatMul s0 = .err (.unsupportedBinaryOperator .AsteriskToken) ⟨[], 0⟩ := by
  decide

/-- C6, counterexample.  The claim that >= is supported for int-like operands
(emitting a signed greater-or-equal compare) is false: the switch has no case
for GreaterThanEqualsToken, so a >= b with int32 operands throws the
unsupported-binary-operator error. -/
theorem C6_counterexample :
    TsType.int32.flagsIntLike = true ∧
    generate exIntGe s0 =
      .err (.unsupportedBinaryOperator .GreaterThanEqualsToken) ⟨[.load 0 2], 1⟩ := by
  decide

/-- C8, counterexample.  The claim that x |= 0 is lowered like x | 0 followed
by a store is false: BarEqualsToken has no case in the switch, so x |= 0
throws the unsupported-binary-operator error (even though isAssignment
classifies it as an assignment), while x | 0 on the same operands succeeds
with a float-to-int truncation and no store. -/
theorem C8_counterexample :
    generate exBarAssignZero s0 = .err (.unsupportedBinaryOperator .BarEqualsToken) ⟨[], 0⟩ ∧
    isAssignment .BarEqualsToken = true ∧
    generate exBarZeroPure s0 =
      .ok (.rvalue (.reg 1) .intLiteral) ⟨[.load 0 1, .conv .fptosi 1 (.reg 0)], 2⟩ := by
  decide

/-- Helper: when the operator switch leaves the result undefined for every
left Value and right operand, generate throws the unsupported-operator error
with the builder state it had after lowering both operands. -/
theorem generate_err_of_emitOp_none (b : BinExpr) (s : EmitState)
    (h : ∀ lv rop s', emitOp b.operatorToken b.left.ty lv rop s' = none) :
    generate b s = .err (.unsupportedBinaryOperator b.operatorToken) (lowerOperandsState b s) := by
  obtain ⟨⟨lty, lg, lval⟩, ⟨rty, rg, rval⟩, k⟩ := b
  cases rval <;>
    simp only [generate, generateValue, Val.generateIR, lowerOperandsState] <;>
    rw [h]

set_option maxHeartbeats 4000000 in
/-- Helper: the trace after generate is the incoming trace, then the left
operand's lowering, then the right operand's lowering, then exactly the
instructions the binary generator emits itself (ownInstrs). -/
theorem generate_instrs_decomp (b : BinExpr) (s : EmitState) :
    (generate b s).state.instrs = s.instrs ++ (b.left.gen ++ (b.right.gen ++ ownInstrs b s)) := by
  obtain ⟨⟨lty, lg, lval⟩, ⟨rty, rg, rval⟩, k⟩ := b
  cases k <;> cases lval <;> cases rval <;>
    simp only [generate, ownInstrs, generateValue, Val.generateIR, emitOp, createBinop,
      createFPToSI, setValue, generateAssignmentIR, isAssignment, GenResult.state,
      Val.isAssignable, if_true, if_false] <;>
    (try split_ifs) <;>
    simp [GenResult.state, List.append_assoc]

set_option maxHeartbeats 4000000 in
/-- C1, amended.  For every binary expression the generator lowers
successfully, the returned Value's recorded static type is the RIGHT
operand's static type — for every operator, comparisons and the or-zero
coercion included — because line 144 constructs the result Value with
rightType. -/
theorem C1_amended (b : BinExpr) (s s' : EmitState) (v : Val)
    (h : generate b s = .ok v s') : v.ty = b.right.ty := by
  obtain ⟨⟨lty, lg, lval⟩, ⟨rty, rg, rval⟩, k⟩ := b
  cases k <;> cases lval <;> cases rval <;>
    simp only [generate, generateValue, Val.generateIR, emitOp, createBinop, createFPToSI,
      setValue, generateAssignmentIR, isAssignment, Val.isAssignable, if_true, if_false,
      Bool.false_eq_true] at h <;>
    (try split_ifs at h) <;>
    simp_all [Val.ty] <;>
    (obtain ⟨h1, h2⟩ := h; subst h1; rfl)

/-- C2, amended.  For the or operator the switch tests only number_like on
the left operand: when it holds and the materialized right operand is an
integer constant zero the generator emits the float-to-signed-int-32
truncation (even for an int-like left operand); when it holds and the right
operand is not a zero integer constant it emits a bitwise or (even for a
float left operand, with no error); when the left operand is not number_like
it raises the unsupported-operator error. -/
theorem C2_amended (left right : OperandNode) (s : EmitState) :
    (left.ty.flagsNumberLike = true → right.val.isConstIntNullIR = true →
        lastOpcode (generate ⟨left, right, .BarToken⟩ s) = some .fptosi) ∧
    (left.ty.flagsNumberLike = true → right.val.isConstIntNullIR = false →
        lastOpcode (generate ⟨left, right, .BarToken⟩ s) = some .or) ∧
    (left.ty.flagsNumberLike = false →
        generate ⟨left, right, .BarToken⟩ s =
          .err (.unsupportedBinaryOperator .BarToken)
            (lowerOperandsState ⟨left, right, .BarToken⟩ s)) := by
  obtain ⟨lty, lg, lval⟩ := left
  obtain ⟨rty, rg, rval⟩ := right
  refine ⟨fun h1 h2 => ?_, fun h1 h2 => ?_, fun h1 => ?_⟩ <;>
    replace h1 : lty.flagsNumberLike = _ := h1 <;>
    (try replace h2 : (Val.isConstIntNullIR rval) = _ := h2) <;>
    cases lval <;> cases rval <;>
    simp_all [generate, generateValue, Val.generateIR, emitOp, createBinop, createFPToSI,
      isAssignment, lastOpcode, lastInstr, Instr.opcode, lowerOperandsState,
      Val.isConstIntNullIR, Operand.isConstIntNull]

set_option maxHeartbeats 4000000 in
/-- C3, amended.  int_like is tested strictly before number_like in the
operators plus, minus, slash, percent, less-than, greater-than,
less-or-equal and strict-equality (and their handled compound forms), so an
int-like left operand of those never produces a float emission; an int32
left operand of the star operator takes the integer-mul path; but the or
operator tests only number_like, so an int32 left operand of or-zero does
produce the float-to-int truncation. -/
theorem C3_amended (b : BinExpr) (s : EmitState) :
    (b.left.ty.flagsIntLike = true →
      (b.operatorToken = .PlusToken ∨ b.operatorToken = .PlusEqualsToken ∨
       b.operatorToken = .MinusToken ∨ b.operatorToken = .MinusEqualsToken ∨
       b.operatorToken = .SlashToken ∨ b.operatorToken = .SlashEqualsToken ∨
       b.operatorToken = .PercentToken ∨ b.operatorToken = .LessThanToken ∨
       b.operatorToken = .GreaterThanToken ∨ b.operatorToken = .LessThanEqualsToken ∨
       b.operatorToken = .EqualsEqualsEqualsToken) →
      ∀ i ∈ ownInstrs b s, i.isFloatOp = false) ∧
    (b.left.ty = .int32 →
      (b.operatorToken = .AsteriskToken ∨ b.operatorToken = .AsteriskEqualsToken) →
      (ownInstrs b s).any (fun i => i.opcode == some Opcode.mul) = true) ∧
    (b.left.ty = .int32 → b.operatorToken = .BarToken → b.right.val.isConstIntNullIR = true →
      (ownInstrs b s).any (fun i => i.opcode == some Opcode.fptosi) = true) := by
  obtain ⟨⟨lty, lg, lval⟩, ⟨rty, rg, rval⟩, k⟩ := b
  refine ⟨fun hint hop => ?_, fun hty hop => ?_, fun hty hop h0 => ?_⟩
  · replace hint : lty.flagsIntLike = true := hint
    rcases hop with rfl|rfl|rfl|rfl|rfl|rfl|rfl|rfl|rfl|rfl|rfl <;>
      cases lval <;> cases rval <;>
      simp_all [ownInstrs, generate, generateValue, Val.generateIR, emitOp, createBinop,
        createFPToSI, setValue, generateAssignmentIR, isAssignment, GenResult.state,
        Val.isAssignable, Instr.isFloatOp, Opcode.isFloatOp]
  · replace hty : lty = .int32 := hty
    subst hty
    rcases hop with rfl|rfl <;>
      cases lval <;> cases rval <;>
      simp_all [ownInstrs, generate, generateValue, Val.generateIR, emitOp, createBinop,
        setValue, generateAssignmentIR, isAssignment, GenResult.state, Val.isAssignable,
        Instr.opcode, TsType.flagsInt]
  · replace hty : lty = .int32 := hty
    subst hty
    subst hop
    replace h0 : (Val.isConstIntNullIR rval) = true := h0
    cases lval <;> cases rval <;>
      simp_all [ownInstrs, generate, generateValue, Val.generateIR, emitOp, createFPToSI,
        isAssignment, GenResult.state, Instr.opcode, Val.isConstIntNullIR,
        Operand.isConstIntNull, TsType.flagsNumberLike]

/-- C4, amended.  The left operand is lowered (context.generateValue) before
the right operand, so every instruction of the left operand's own lowering
precedes every instruction of the right operand's; but operand
materialization runs right first (line 32) and left inside the case bodies,
so when both operands are l-values the generator's own emission starts with
the load of the RIGHT slot, then the load of the left slot, then the
operation. -/
theorem C4_amended (b : BinExpr) (s : EmitState) :
    (∃ rest, (generate b s).state.instrs = s.instrs ++ (b.left.gen ++ (b.right.gen ++ rest))) ∧
    (∀ lslot ltyv rslot rtyv,
       b.left.val = .lvalue lslot ltyv → b.right.val = .lvalue rslot rtyv →
       b.operatorToken = .PlusToken → b.left.ty.flagsIntLike = true →
       ownInstrs b s = [.load s.nextReg rslot, .load (s.nextReg + 1) lslot,
         .binop .add (s.nextReg + 2) (.reg (s.nextReg + 1)) (.reg s.nextReg)]) := by
  constructor
  · exact ⟨ownInstrs b s, generate_instrs_decomp b s⟩
  · intro lslot ltyv rslot rtyv hl hr hk hint
    obtain ⟨⟨lty, lg, lval⟩, ⟨rty, rg, rval⟩, k⟩ := b
    replace hint : lty.flagsIntLike = true := hint
    replace hl : lval = .lvalue lslot ltyv := hl
    replace hr : rval = .lvalue rslot rtyv := hr
    replace hk : k = .PlusToken := hk
    subst hl; subst hr; subst hk
    simp [ownInstrs, generate, generateValue, Val.generateIR, emitOp, createBinop,
      isAssignment, GenResult.state, hint]

/-- C5, amended.  The star and star-equals operators emit an integer
multiply only when the left operand's type carries the Int flag; for every
other left type — number-like floats included — the switch leaves the result
undefined and the generator raises the unsupported-operator error (there is
no promotion path). -/
theorem C5_amended (left right : OperandNode) (s : EmitState) (k : TokenKind)
    (hk : k = .AsteriskToken ∨ k = .AsteriskEqualsToken) :
    (left.ty.flagsInt = true →
        (ownInstrs ⟨left, right, k⟩ s).any (fun i => i.opcode == some Opcode.mul) = true) ∧
    (left.ty.flagsInt = false →
        generate ⟨left, right, k⟩ s =
          .err (.unsupportedBinaryOperator k) (lowerOperandsState ⟨left, right, k⟩ s)) := by
  obtain ⟨lty, lg, lval⟩ := left
  obtain ⟨rty, rg, rval⟩ := right
  rcases hk with rfl | rfl <;>
    refine ⟨fun hi => ?_, fun hi => ?_⟩ <;>
    replace hi : lty.flagsInt = _ := hi <;>
    cases lval <;> cases rval <;>
    simp_all [ownInstrs, generate, generateValue, Val.generateIR, emitOp, createBinop,
      setValue, generateAssignmentIR, isAssignment, GenResult.state, Val.isAssignable,
      lowerOperandsState, Instr.opcode]

/-- C6, amended.  The operators greater-or-equal, strict-inequality,
bitwise and, bitwise xor and the three shifts have no case in the switch at
all: for every pair of operand types — int-like operands included — the
generator raises the unsupported-binary-operator error. -/
theorem C6_amended (left right : OperandNode) (s : EmitState) (k : TokenKind)
    (hk : k = .GreaterThanEqualsToken ∨ k = .ExclamationEqualsEqualsToken ∨
          k = .AmpersandToken ∨ k = .CaretToken ∨ k = .LessThanLessThanToken ∨
          k = .GreaterThanGreaterThanToken ∨ k = .GreaterThanGreaterThanGreaterThanToken) :
    generate ⟨left, right, k⟩ s =
      .err (.unsupportedBinaryOperator k) (lowerOperandsState ⟨left, right, k⟩ s) := by
  rcases hk with rfl|rfl|rfl|rfl|rfl|rfl|rfl <;>
    exact generate_err_of_emitOp_none _ _ (fun lv rop s' => rfl)

set_option maxHeartbeats 4000000 in
/-- C7.  For every assignment-form operator token: when generate succeeds the
left operand was an assignable (l-value) Value, the returned Value is the
computed result carrying the right operand's type, and the last emitted
instruction is the store of exactly that result operand into the left
operand's slot (the expression evaluates to the assigned value, not a
loaded-back value); when the left operand is not assignable, generate throws
— either the unsupported-operator error from the switch or the readonly
error from setValue. -/
theorem C7_assignment_semantics (b : BinExpr) (s : EmitState)
    (hassign : isAssignment b.operatorToken = true) :
    (∀ v s', generate b s = .ok v s' →
        b.left.val.isAssignable = true ∧
        ∃ slot ltyv op, b.left.val = .lvalue slot ltyv ∧ v = .rvalue op b.right.ty ∧
          lastInstr s' = some (.store slot op)) ∧
    (b.left.val.isAssignable = false →
        ∃ serr, generate b s = .err (.unsupportedBinaryOperator b.operatorToken) serr ∨
                generate b s = .err .assignmentToReadonly serr) := by
  obtain ⟨⟨lty, lg, lval⟩, ⟨rty, rg, rval⟩, k⟩ := b
  constructor
  · intro v s' h
    cases k <;> cases lval <;> cases rval <;>
      simp only [generate, generateValue, Val.generateIR, emitOp, createBinop, createFPToSI,
        setValue, generateAssignmentIR, isAssignment, Val.isAssignable, if_true, if_false,
        Bool.false_eq_true] at h hassign <;>
      (try split_ifs at h) <;>
      simp_all [lastInstr, Val.isAssignable] <;>
      (obtain ⟨h1, h2⟩ := h; subst h1; subst h2;
        exact ⟨_, rfl, by simp [List.getLast?_append_of_ne_nil]⟩)
  · intro hna
    replace hna : (Val.isAssignable lval) = false := hna
    cases k <;> cases lval <;> cases rval <;>
      simp_all [generate, generateValue, Val.generateIR, emitOp, createBinop, createFPToSI,
        setValue, generateAssignmentIR, isAssignment, Val.isAssignable] <;>
      (try split_ifs) <;>
      first
      | exact ⟨_, Or.inl rfl⟩
      | exact ⟨_, Or.inr rfl⟩

set_option maxHeartbeats 4000000 in
/-- C8, amended.  x |= 0 is NOT lowered like x | 0 followed by a store: the
compound forms percent-equals, and-equals, or-equals, xor-equals, the three
shift-equals and star-star-equals have no case in the switch and raise the
unsupported-binary-operator error; x | 0 itself is pure (the generator emits
no store for it); only the compound forms star-equals, plus-equals,
minus-equals and slash-equals use the same emission rule as their base
operator and then assign. -/
theorem C8_amended (left right : OperandNode) (s : EmitState) :
    (∀ k, (k = .PercentEqualsToken ∨ k = .AmpersandEqualsToken ∨ k = .BarEqualsToken ∨
           k = .CaretEqualsToken ∨ k = .LessThanLessThanEqualsToken ∨
           k = .GreaterThanGreaterThanEqualsToken ∨
           k = .GreaterThanGreaterThanGreaterThanEqualsToken ∨
           k = .AsteriskAsteriskEqualsToken) →
        generate ⟨left, right, k⟩ s =
          .err (.unsupportedBinaryOperator k) (lowerOperandsState ⟨left, right, k⟩ s)) ∧
    (∀ i ∈ ownInstrs ⟨left, right, .BarToken⟩ s, i.isStore = false) ∧
    (∀ kc kb, (kc = TokenKind.AsteriskEqualsToken ∧ kb = TokenKind.AsteriskToken ∨
               kc = TokenKind.PlusEqualsToken ∧ kb = TokenKind.PlusToken ∨
               kc = TokenKind.MinusEqualsToken ∧ kb = TokenKind.MinusToken ∨
               kc = TokenKind.SlashEqualsToken ∧ kb = TokenKind.SlashToken) →
        ∀ v s1, generate ⟨left, right, kb⟩ s = .ok v s1 →
          generate ⟨left, right, kc⟩ s = applyAssign left.val (.ok v s1)) := by
  obtain ⟨lty, lg, lval⟩ := left
  obtain ⟨rty, rg, rval⟩ := right
  refine ⟨fun k hk => ?_, ?_, fun kc kb hks v s1 h => ?_⟩
  · rcases hk with rfl|rfl|rfl|rfl|rfl|rfl|rfl|rfl <;>
      exact generate_err_of_emitOp_none _ _ (fun lv rop s' => rfl)
  · cases lval <;> cases rval <;>
      simp [ownInstrs, generate, generateValue, Val.generateIR, emitOp, createBinop,
        createFPToSI, isAssignment, GenResult.state, Instr.isStore] <;>
      (try split_ifs) <;>
      simp [Instr.isStore]
  · rcases hks with ⟨rfl, rfl⟩|⟨rfl, rfl⟩|⟨rfl, rfl⟩|⟨rfl, rfl⟩ <;>
      cases lval <;> cases rval <;>
      simp only [generate, generateValue, Val.generateIR, emitOp, createBinop, setValue,
        generateAssignmentIR, isAssignment, Val.isAssignable, applyAssign, if_true,
        if_false, Bool.false_eq_true] at h ⊢ <;>
      (try split_ifs at h ⊢) <;>
      first
        | (dsimp only at h ⊢; rw [GenResult.ok.injEq] at h; obtain ⟨h1, h2⟩ := h;
            subst h1; subst h2;
            simp [applyAssign, setValue, Val.isAssignable, generateAssignmentIR,
              Val.generateIR])
        | simp at h

/-- C9.  For a number-like, non-int-like left operand the float comparison
predicates are the mixed ordered/unordered set of the source: greater-than
emits the ordered greater-than compare, less-than the unordered less-than
compare, less-or-equal the unordered less-or-equal compare, and strict
equality the ordered equality compare. -/
theorem C9_float_predicates (left right : OperandNode) (s : EmitState)
    (hnum : left.ty.flagsNumberLike = true) (hilike : left.ty.flagsIntLike = false) :
    lastOpcode (generate ⟨left, right, .GreaterThanToken⟩ s) = some .fcmpOGT ∧
    lastOpcode (generate ⟨left, right, .LessThanToken⟩ s) = some .fcmpULT ∧
    lastOpcode (generate ⟨left, right, .LessThanEqualsToken⟩ s) = some .fcmpULE ∧
    lastOpcode (generate ⟨left, right, .EqualsEqualsEqualsToken⟩ s) = some .fcmpOEQ := by
  obtain ⟨lty, lg, lval⟩ := left
  obtain ⟨rty, rg, rval⟩ := right
  replace hnum : lty.flagsNumberLike = true := hnum
  replace hilike : lty.flagsIntLike = false := hilike
  refine ⟨?_, ?_, ?_, ?_⟩ <;>
    cases lval <;> cases rval <;>
    simp [generate, generateValue, Val.generateIR, emitOp, createBinop, isAssignment,
      lastOpcode, lastInstr, Instr.opcode, hnum, hilike]

/-- C10.  Whenever generate throws the unsupported-binary-operator error, the
builder holds the incoming trace, the two operands' own lowerings, and at
most the right operand's materialization load — never a store: the throw at
line 141 happens strictly before the assignment step, though after both
operands were lowered. -/
theorem C10_no_store_on_unsupported (b : BinExpr) (s serr : EmitState) (k : TokenKind)
    (h : generate b s = .err (.unsupportedBinaryOperator k) serr) :
    ∃ rest, serr.instrs = s.instrs ++ (b.left.gen ++ (b.right.gen ++ rest)) ∧
      ∀ i ∈ rest, i.isStore = false := by
  obtain ⟨⟨lty, lg, lval⟩, ⟨rty, rg, rval⟩, kk⟩ := b
  cases rval with
  | rvalue op2 rty2 =>
      simp only [generate, generateValue, Val.generateIR] at h
      split at h
      · injection h with h1 h2
        subst h2
        exact ⟨[], by simp, by simp⟩
      · split_ifs at h <;> cases lval <;>
          simp_all [setValue, Val.isAssignable, generateAssignmentIR]
  | lvalue rslot rty2 =>
      simp only [generate, generateValue, Val.generateIR] at h
      split at h
      · injection h with h1 h2
        subst h2
        refine ⟨[Instr.load s.nextReg rslot], by simp, ?_⟩
        simp [Instr.isStore]
      · split_ifs at h <;> cases lval <;>
          simp_all [setValue, Val.isAssignable, generateAssignmentIR]

/-- Witness for C1_amended: for a + b on int32 r-values the returned Value's
type equals the right operand's type. -/
theorem C1_amended_witness :
    (Val.rvalue (.reg 0) .int32).ty = exIntAddRegs.right.ty :=
  C1_amended exIntAddRegs s0 ⟨[.binop .add 0 (.reg 10) (.reg 11)], 1⟩
    (.rvalue (.reg 0) .int32) (by decide)

/-- Witness for C2_amended: the three branches at concrete inputs — a float
ored with the literal 0 truncates, a float ored with a register emits a
bitwise or, a bool left operand is an error. -/
theorem C2_amended_witness :
    lastOpcode (generate exFloatBarZero s0) = some .fptosi ∧
    lastOpcode (generate exFloatBarReg s0) = some .or ∧
    generate exBoolBar s0 =
      .err (.unsupportedBinaryOperator .BarToken) (lowerOperandsState exBoolBar s0) :=
  ⟨(C2_amended exFloatBarZero.left exFloatBarZero.right s0).1 (by decide) (by decide),
   (C2_amended exFloatBarReg.left exFloatBarReg.right s0).2.1 (by decide) (by decide),
   (C2_amended exBoolBar.left exBoolBar.right s0).2.2 (by decide)⟩

/-- Witness for C3_amended: the three conjuncts at concrete inputs — int32
addition emits no float instruction, int32 multiplication emits an integer
mul, and int32 or-zero emits the truncation. -/
theorem C3_amended_witness :
    (∀ i ∈ ownInstrs exIntAddRegs s0, i.isFloatOp = false) ∧
    (ownInstrs exIntMul s0).any (fun i => i.opcode == some Opcode.mul) = true ∧
    (ownInstrs exIntBarZero s0).any (fun i => i.opcode == some Opcode.fptosi) = true :=
  ⟨(C3_amended exIntAddRegs s0).1 (by decide) (Or.inl rfl),
   (C3_amended exIntMul s0).2.1 (by decide) (Or.inl rfl),
   (C3_amended exIntBarZero s0).2.2 (by decide) (by decide) (by decide)⟩

/-- Witness for C4_amended: both conjuncts at a + b on two identifiers — the
trace decomposes after the operand lowerings, and the generator's own
emission loads the right slot (2) before the left slot (1). -/
theorem C4_amended_witness :
    (∃ rest, (generate exAddSlots s0).state.instrs =
        s0.instrs ++ (exAddSlots.left.gen ++ (exAddSlots.right.gen ++ rest))) ∧
    ownInstrs exAddSlots s0 = [.load 0 2, .load 1 1, .binop .add 2 (.reg 1) (.reg 0)] :=
  ⟨(C4_amended exAddSlots s0).1,
   (C4_amended exAddSlots s0).2 1 .int32 2 .int32 (by decide) (by decide) (by decide) (by decide)⟩

/-- Witness for C5_amended: int32 multiplication emits the integer mul, and
float64 multiplication raises the unsupported-operator error. -/
theorem C5_amended_witness :
    (ownInstrs exIntMul s0).any (fun i => i.opcode == some Opcode.mul) = true ∧
    generate exFloatMul s0 =
      .err (.unsupportedBinaryOperator .AsteriskToken) (lowerOperandsState exFloatMul s0) :=
  ⟨(C5_amended exIntMul.left exIntMul.right s0 .AsteriskToken (Or.inl rfl)).1 (by decide),
   (C5_amended exFloatMul.left exFloatMul.right s0 .AsteriskToken (Or.inl rfl)).2 (by decide)⟩

/-- Witness for C6_amended: a >= b on int32 operands raises the
unsupported-operator error. -/
theorem C6_amended_witness :
    generate exIntGe s0 =
      .err (.unsupportedBinaryOperator .GreaterThanEqualsToken) (lowerOperandsState exIntGe s0) :=
  C6_amended exIntGe.left exIntGe.right s0 .GreaterThanEqualsToken (Or.inl rfl)

/-- Witness for C7_assignment_semantics: x += y on int32 identifiers — the
target is assignable and the lowering ends with the store of the computed
sum into x's slot. -/
theorem C7_assignment_semantics_witness :
    exAddAssign.left.val.isAssignable = true ∧
    ∃ slot ltyv op, exAddAssign.left.val = .lvalue slot ltyv ∧
      (Val.rvalue (.reg 2) .int32 : Val) = .rvalue op exAddAssign.right.ty ∧
      lastInstr ⟨[.load 0 2, .load 1 1, .binop .add 2 (.reg 1) (.reg 0), .store 1 (.reg 2)], 3⟩ =
        some (.store slot op) :=
  (C7_assignment_semantics exAddAssign s0 (by decide)).1
    (.rvalue (.reg 2) .int32)
    ⟨[.load 0 2, .load 1 1, .binop .add 2 (.reg 1) (.reg 0), .store 1 (.reg 2)], 3⟩
    (by decide)

/-- Witness for C8_amended: x |= 0 raises the unsupported-operator error,
x | 0 emits no store, and x += y equals the pure x + y lowering followed by
the assignment step. -/
theorem C8_amended_witness :
    generate exBarAssignZero s0 =
      .err (.unsupportedBinaryOperator .BarEqualsToken)
        (lowerOperandsState exBarAssignZero s0) ∧
    (∀ i ∈ ownInstrs exBarZeroPure s0, i.isStore = false) ∧
    generate exAddAssign s0 =
      applyAssign exAddAssign.left.val
        (.ok (.rvalue (.reg 2) .int32)
          ⟨[.load 0 2, .load 1 1, .binop .add 2 (.reg 1) (.reg 0)], 3⟩) :=
  ⟨(C8_amended exBarAssignZero.left exBarAssignZero.right s0).1 .BarEqualsToken
      (Or.inr (Or.inr (Or.inl rfl))),
   (C8_amended exBarZeroPure.left exBarZeroPure.right s0).2.1,
   (C8_amended exAddAssign.left exAddAssign.right s0).2.2 .PlusEqualsToken .PlusToken
      (Or.inr (Or.inl ⟨rfl, rfl⟩))
      (.rvalue (.reg 2) .int32)
      ⟨[.load 0 2, .load 1 1, .binop .add 2 (.reg 1) (.reg 0)], 3⟩ (by decide)⟩

/-- Witness for C9_float_predicates: the four comparisons on float64
operands emit ordered greater-than, unordered less-than, unordered
less-or-equal and ordered equality. -/
theorem C9_float_predicates_witness :
    lastOpcode (generate (exFloatCmp .GreaterThanToken) s0) = some .fcmpOGT ∧
    lastOpcode (generate (exFloatCmp .LessThanToken) s0) = some .fcmpULT ∧
    lastOpcode (generate (exFloatCmp .LessThanEqualsToken) s0) = some .fcmpULE ∧
    lastOpcode (generate (exFloatCmp .EqualsEqualsEqualsToken) s0) = some .fcmpOEQ :=
  C9_float_predicates (exFloatCmp .GreaterThanToken).left (exFloatCmp .GreaterThanToken).right s0
    (by decide) (by decide)

/-- Witness for C10_no_store_on_unsupported: a & b on int32 identifiers
fails with the unsupported-operator error and its trace beyond the operand
lowerings is the single right-operand load — no store. -/
theorem C10_no_store_on_unsupported_witness :
    ∃ rest, (⟨[Instr.load 0 2], 1⟩ : EmitState).instrs =
        s0.instrs ++ (exIntAmp.left.gen ++ (exIntAmp.right.gen ++ rest)) ∧
      ∀ i ∈ rest, i.isStore = false :=
  C10_no_store_on_unsupported exIntAmp s0 ⟨[Instr.load 0 2], 1⟩ .AmpersandToken (by decide)
